import Mathlib

/-!
Shallow embedding of the chip8-rust interpreter (src/cpu.rs, src/display.rs,
src/keypad.rs) and verification of its specification claims.

Machine integers are modelled as Nat with explicit truncation where the Rust
code truncates; the i8 casts in the subtract handlers are modelled with Int.
Fixed-size Rust arrays are modelled as Lean lists accessed with getD/set;
operations are totalized that way except where a claim is about the
out-of-bounds case itself (the stack operations, where a Rust panic is
modelled as the abnormal result none).
-/

namespace Chip8

/-- Rust u8-to-i8 reinterpretation: for a byte value n, the i8 with the same
bit pattern. -/
def i8_of_u8 (n : Nat) : Int :=
  if n % 256 < 128 then (n % 256 : Int) else (n % 256 : Int) - 256

/-- Wrapping of an Int into i8 range, modelling two's-complement i8 overflow
(Rust release-mode wrapping arithmetic). -/
def i8_wrap (z : Int) : Int :=
  (z + 128) % 256 - 128

/-- Rust i8-to-u8 reinterpretation: byte with the same bit pattern. -/
def u8_of_i8 (z : Int) : Nat :=
  (z % 256).toNat

-- Small helper lemmas about list update and defaulted read.

theorem getD_set_self {α : Type} (l : List α) (i : Nat) (a d : α)
    (h : i < l.length) : (l.set i a).getD i d = a := by
  simp [List.getD_eq_getElem?_getD, List.getElem?_set_self', List.getElem?_eq_getElem h]

theorem getD_set_ne {α : Type} (l : List α) {i j : Nat} (a : α) (d : α)
    (h : i ≠ j) : (l.set i a).getD j d = l.getD j d := by
  simp [List.getD_eq_getElem?_getD, List.getElem?_set_ne h]

theorem getD_set_cases {α : Type} (l : List α) (i j : Nat) (a d : α) :
    (l.set i a).getD j d = if i = j ∧ i < l.length then a else l.getD j d := by
  by_cases hij : i = j
  · subst hij
    by_cases hi : i < l.length
    · simp [hi, getD_set_self l i a d hi]
    · simp [hi, List.set_eq_of_length_le (Nat.le_of_not_lt hi)]
  · simp [hij, getD_set_ne l a d hij]

/-! ## Display (src/display.rs) -/

def DISPLAY_WIDTH : Nat := 64
def DISPLAY_HEIGHT : Nat := 32

/-- The 64 by 32 framebuffer: a row-major grid of byte cells, 1 = pixel on,
0 = pixel off. -/
structure Display where
  memory : List (List Nat)
deriving DecidableEq

namespace Display

/-- Display::new -/
def new : Display :=
  ⟨List.replicate DISPLAY_HEIGHT (List.replicate DISPLAY_WIDTH 0)⟩

/-- Display::clear -/
def clear (_d : Display) : Display :=
  ⟨List.replicate DISPLAY_HEIGHT (List.replicate DISPLAY_WIDTH 0)⟩

/-- Body of the inner loop of Display::draw for sprite row j and bit i:
if bit i (most significant first) of sprite byte j is set, record a collision
when the target cell is lit and XOR-flip the target cell at
row (y+j) mod 32, column (x+i) mod 64. The state is (framebuffer, collision
flag so far). -/
def drawStep (x y : Nat) (sprite : List Nat) (st : List (List Nat) × Bool)
    (ji : Nat × Nat) : List (List Nat) × Bool :=
  let j := ji.1
  let i := ji.2
  let ypos := (y + j) % DISPLAY_HEIGHT
  let xpos := (x + i) % DISPLAY_WIDTH
  if sprite.getD j 0 &&& (0x80 >>> i) ≠ 0 then
    let row := st.1.getD ypos []
    let cell := row.getD xpos 0
    (st.1.set ypos (row.set xpos (Nat.xor cell 0x01)), st.2 || (cell == 0x01))
  else
    st

/-- Display::draw: for each sprite row j and each of its 8 bits i
(most significant first), run drawStep; returns the updated framebuffer and
whether any collision was recorded. -/
def draw (d : Display) (x y : Nat) (sprite : List Nat) : Display × Bool :=
  let h := sprite.length
  let r := (List.range h).foldl
    (fun st j => (List.range 8).foldl (fun st2 i => drawStep x y sprite st2 (j, i)) st)
    (d.memory, false)
  (⟨r.1⟩, r.2)

end Display

/-! ## Keypad (src/keypad.rs) -/

structure Keypad where
  keys : List Bool
deriving DecidableEq

namespace Keypad

/-- Keypad::new -/
def new : Keypad := ⟨List.replicate 16 false⟩

/-- Keypad::get_key_state -/
def get_key_state (k : Keypad) (index : Nat) : Bool :=
  k.keys.getD index false

/-- Keypad::set_key_state -/
def set_key_state (k : Keypad) (index : Nat) (state : Bool) : Keypad :=
  ⟨k.keys.set index state⟩

end Keypad

/-! ## CPU (src/cpu.rs) -/

/-- The index of the carry flag register. -/
def CARRY_FLAG : Nat := 15

/-- The default stack size. -/
def STACK_SIZE : Nat := 16

structure CPU where
  opcode : Nat
  v : List Nat
  i : Nat
  pc : Nat
  memory : List Nat
  display : Display
  keypad : Keypad
  wait_for_key : Option Nat
  stack : List Nat
  sp : Nat
  delay_timer : Nat
  sound_timer : Nat
deriving DecidableEq

namespace CPU

/-- CPU::update_cpu_timers -/
def update_cpu_timers (s : CPU) : CPU :=
  let s := if s.delay_timer > 0 then { s with delay_timer := s.delay_timer - 1 } else s
  if s.sound_timer > 0 then { s with sound_timer := s.sound_timer - 1 } else s

/-- CPU::is_waiting_for_key -/
def is_waiting_for_key (s : CPU) : Bool :=
  s.wait_for_key.isSome

/-- CPU::stop_waiting_for_key: if waiting on register x and the keypad
currently reports key pressed, store the key (truncated to u8) in Vx and
clear the wait. -/
def stop_waiting_for_key (s : CPU) (key : Nat) : CPU :=
  if ¬ s.is_waiting_for_key then s
  else
    match s.wait_for_key with
    | none => s
    | some x =>
      if s.keypad.get_key_state key then
        { s with v := s.v.set x (key % 256), wait_for_key := none }
      else s

/-- CPU::fetch_opcode: big-endian combination of the two bytes at pc. -/
def fetch_opcode (s : CPU) : CPU :=
  { s with opcode := (s.memory.getD s.pc 0) <<< 8 ||| s.memory.getD (s.pc + 1) 0 }

/-- Opcode 00E0: clear the display. -/
def instr_cls (s : CPU) : CPU :=
  { s with display := s.display.clear, pc := s.pc + 2 }

/-- Opcode 1nnn: jump to location nnn. -/
def instr_jp_addr (s : CPU) (addr : Nat) : CPU :=
  { s with pc := addr }

/-- Opcode 00EE: return from a subroutine. Rust performs the unchecked
decrement sp -= 1 followed by the index stack[sp]; with sp = 0 (or an index
beyond the 16-entry stack) this panics, modelled as none. -/
def instr_ret (s : CPU) : Option CPU :=
  if s.sp = 0 ∨ s.sp - 1 ≥ STACK_SIZE then none
  else
    let sp := s.sp - 1
    let addr := s.stack.getD sp 0
    some { (instr_jp_addr { s with sp := sp } addr) with pc := addr + 2 }

/-- Opcode 2nnn: call subroutine at nnn. Rust writes stack[sp]; with sp = 16
the index is out of bounds and panics, modelled as none. -/
def instr_call_addr (s : CPU) (addr : Nat) : Option CPU :=
  if s.sp ≥ STACK_SIZE then none
  else
    some (instr_jp_addr { s with stack := s.stack.set s.sp (s.pc % 65536), sp := s.sp + 1 } addr)

/-- Opcode 3xnn: skip next instruction if Vx = nn. -/
def instr_se_vx_nn (s : CPU) (x nn : Nat) : CPU :=
  { s with pc := s.pc + (if s.v.getD x 0 == nn then 4 else 2) }

/-- Opcode 4xnn: skip next instruction if Vx differs from nn. -/
def instr_sne_vx_nn (s : CPU) (x nn : Nat) : CPU :=
  { s with pc := s.pc + (if s.v.getD x 0 != nn then 4 else 2) }

/-- Opcode 5xy0: skip next instruction if Vx = Vy. -/
def instr_se_vx_vy (s : CPU) (x y : Nat) : CPU :=
  { s with pc := s.pc + (if s.v.getD x 0 == s.v.getD y 0 then 4 else 2) }

/-- Opcode 6xnn: set Vx = nn. -/
def instr_ld_vx_nn (s : CPU) (x nn : Nat) : CPU :=
  { s with v := s.v.set x nn, pc := s.pc + 2 }

/-- Opcode 7xnn: set Vx = Vx + nn (computed in u16, truncated to u8).
Note: does not touch the carry flag register. -/
def instr_add_vx_nn (s : CPU) (x nn : Nat) : CPU :=
  { s with v := s.v.set x ((s.v.getD x 0 + nn) % 256), pc := s.pc + 2 }

/-- Opcode 8xy0: set Vx = Vy. -/
def instr_ld_vx_vy (s : CPU) (x y : Nat) : CPU :=
  { s with v := s.v.set x (s.v.getD y 0), pc := s.pc + 2 }

/-- Opcode 8xy1: set Vx = Vx OR Vy. -/
def instr_or_vx_vy (s : CPU) (x y : Nat) : CPU :=
  { s with v := s.v.set x (s.v.getD x 0 ||| s.v.getD y 0), pc := s.pc + 2 }

/-- Opcode 8xy2: set Vx = Vx AND Vy. -/
def instr_and_vx_vy (s : CPU) (x y : Nat) : CPU :=
  { s with v := s.v.set x (s.v.getD x 0 &&& s.v.getD y 0), pc := s.pc + 2 }

/-- Opcode 8xy3: set Vx = Vx XOR Vy. -/
def instr_xor_vx_vy (s : CPU) (x y : Nat) : CPU :=
  { s with v := s.v.set x (Nat.xor (s.v.getD x 0) (s.v.getD y 0)), pc := s.pc + 2 }

/-- Opcode 8xy4: Vx = Vx + Vy widened to u16 then truncated; carry flag set
to 1 iff the untruncated sum exceeds 255. -/
def instr_add_vx_vy (s : CPU) (x y : Nat) : CPU :=
  let value := s.v.getD x 0 + s.v.getD y 0
  { s with v := (s.v.set x (value % 256)).set CARRY_FLAG (if value > 255 then 0x1 else 0x0),
           pc := s.pc + 2 }

/-- Opcode 8xy5: Vx = Vx - Vy. Rust computes (Vx as i8) - (Vy as i8) (an i8
subtraction, wrapping in release mode), stores the result reinterpreted as
u8, and sets the carry flag to 0 iff that i8 value is negative. -/
def instr_sub_vx_vy (s : CPU) (x y : Nat) : CPU :=
  let value := i8_wrap (i8_of_u8 (s.v.getD x 0) - i8_of_u8 (s.v.getD y 0))
  { s with v := (s.v.set x (u8_of_i8 value)).set CARRY_FLAG (if value < 0 then 0x0 else 0x1),
           pc := s.pc + 2 }

/-- Opcode 8xy6: carry flag receives Vy AND 0x80 first, then Vx = Vy >> 1
(Vy re-read after the flag write, as in the source). -/
def instr_shr_vx_vy (s : CPU) (x y : Nat) : CPU :=
  let v1 := s.v.set CARRY_FLAG (s.v.getD y 0 &&& 0x80)
  { s with v := v1.set x (v1.getD y 0 >>> 1), pc := s.pc + 2 }

/-- Opcode 8xy7: Vx = Vy - Vx with the same i8 semantics as 8xy5. -/
def instr_subn_vx_vy (s : CPU) (x y : Nat) : CPU :=
  let value := i8_wrap (i8_of_u8 (s.v.getD y 0) - i8_of_u8 (s.v.getD x 0))
  { s with v := (s.v.set x (u8_of_i8 value)).set CARRY_FLAG (if value < 0 then 0x0 else 0x1),
           pc := s.pc + 2 }

/-- Opcode 8xyE: carry flag receives Vy AND 0x01 first, then Vx = Vy << 1
truncated to u8 (Vy re-read after the flag write, as in the source). -/
def instr_shl_vx_vy (s : CPU) (x y : Nat) : CPU :=
  let v1 := s.v.set CARRY_FLAG (s.v.getD y 0 &&& 0x01)
  { s with v := v1.set x ((v1.getD y 0 <<< 1) % 256), pc := s.pc + 2 }

/-- Opcode 9xy0: skip next instruction if Vx differs from Vy. -/
def instr_sne_vx_vy (s : CPU) (x y : Nat) : CPU :=
  { s with pc := s.pc + (if s.v.getD x 0 != s.v.getD y 0 then 4 else 2) }

/-- Opcode Annn: set I = nnn. -/
def instr_ld_i_addr (s : CPU) (addr : Nat) : CPU :=
  { s with i := addr, pc := s.pc + 2 }

/-- Opcode Bnnn: jump to nnn + V0. -/
def instr_jp_v0_addr (s : CPU) (addr : Nat) : CPU :=
  instr_jp_addr s (addr + s.v.getD 0 0)

/-- Opcode Cxnn: Vx = random byte AND nn; the random byte is supplied as an
external input r. -/
def instr_rnd_vx_nn (s : CPU) (r : Nat) (x nn : Nat) : CPU :=
  { s with v := s.v.set x (r % 256 &&& nn), pc := s.pc + 2 }

/-- Opcode Dxyn: draw the n-byte sprite at memory I at origin (Vx, Vy);
carry flag set to 1 iff the blit reports a collision. -/
def instr_drw_vx_vy_nn (s : CPU) (x y nn : Nat) : CPU :=
  let px := s.v.getD x 0
  let py := s.v.getD y 0
  let sprite := (List.range nn).map (fun k => s.memory.getD (s.i + k) 0)
  let r := s.display.draw px py sprite
  { s with display := r.1,
           v := s.v.set CARRY_FLAG (if r.2 then 0x1 else 0x0),
           pc := s.pc + 2 }

/-- Opcode Ex9E: skip next instruction if key Vx is pressed. -/
def instr_skp_vx (s : CPU) (x : Nat) : CPU :=
  { s with pc := s.pc + (if s.keypad.get_key_state (s.v.getD x 0) then 4 else 2) }

/-- Opcode ExA1: skip next instruction if key Vx is not pressed. -/
def instr_sknp_vx (s : CPU) (x : Nat) : CPU :=
  { s with pc := s.pc + (if s.keypad.get_key_state (s.v.getD x 0) then 2 else 4) }

/-- Opcode Fx07: Vx = delay timer. -/
def instr_ld_vx_dt (s : CPU) (x : Nat) : CPU :=
  { s with v := s.v.set x s.delay_timer, pc := s.pc + 2 }

/-- Opcode Fx0A: wait for a key press; records the destination register and
leaves pc unchanged. -/
def instr_ld_vx_k (s : CPU) (x : Nat) : CPU :=
  { s with wait_for_key := some x }

/-- Opcode Fx15: delay timer = Vx. -/
def instr_ld_dt_vx (s : CPU) (x : Nat) : CPU :=
  { s with delay_timer := s.v.getD x 0, pc := s.pc + 2 }

/-- Opcode Fx18: sound timer = Vx. -/
def instr_ld_st_vx (s : CPU) (x : Nat) : CPU :=
  { s with sound_timer := s.v.getD x 0, pc := s.pc + 2 }

/-- Opcode Fx1E: I = I + Vx. -/
def instr_add_i_vx (s : CPU) (x : Nat) : CPU :=
  { s with i := s.i + s.v.getD x 0, pc := s.pc + 2 }

/-- Opcode Fx29: I = Vx * 5 (u8 multiplication, wrapping). -/
def instr_ld_f_vx (s : CPU) (x : Nat) : CPU :=
  { s with i := (s.v.getD x 0 * 5) % 256, pc := s.pc + 2 }

/-- Opcode Fx33: store the BCD digits of Vx at I, I+1, I+2. -/
def instr_ld_b_vx (s : CPU) (x : Nat) : CPU :=
  let vx := s.v.getD x 0
  { s with memory := ((s.memory.set s.i (vx / 100)).set (s.i + 1) (vx / 10 % 10)).set
             (s.i + 2) (vx % 10),
           pc := s.pc + 2 }

/-- Opcode Fx55: store registers V0 through Vx in memory starting at I, then
I = I + x + 1. -/
def instr_ld_i_vx (s : CPU) (x : Nat) : CPU :=
  let mem := (List.range (x + 1)).foldl (fun m k => m.set (s.i + k) (s.v.getD k 0)) s.memory
  { s with memory := mem, i := s.i + x + 1, pc := s.pc + 2 }

/-- Opcode Fx65: read registers V0 through Vx from memory starting at I, then
I = I + x + 1. -/
def instr_ld_vx_i (s : CPU) (x : Nat) : CPU :=
  let v := (List.range (x + 1)).foldl (fun vv k => vv.set k (s.memory.getD (s.i + k) 0)) s.v
  { s with v := v, i := s.i + x + 1, pc := s.pc + 2 }

/-- The dispatch match of CPU::execute_opcode over the four opcode nibbles
(n0, x, y, n in the source naming), with the arms in source order; the
ordered if-cascade encodes the first-match semantics of the source match.
The random byte r feeds the Cxnn handler. An unmatched tuple falls to the
final arm, which leaves the state untouched. -/
def dispatch (r : Nat) (s : CPU) (n0 x y n : Nat) : Option CPU :=
  if n0 = 0x0 ∧ x = 0x0 ∧ y = 0xE ∧ n = 0x0 then some s.instr_cls
  else if n0 = 0x0 ∧ x = 0x0 ∧ y = 0xE ∧ n = 0xE then s.instr_ret
  else if n0 = 0x1 then some (s.instr_jp_addr (s.opcode &&& 0x0FFF))
  else if n0 = 0x2 then s.instr_call_addr (s.opcode &&& 0x0FFF)
  else if n0 = 0x3 then some (s.instr_se_vx_nn x (s.opcode &&& 0x00FF))
  else if n0 = 0x4 then some (s.instr_sne_vx_nn x (s.opcode &&& 0x00FF))
  else if n0 = 0x5 ∧ n = 0x0 then some (s.instr_se_vx_vy x y)
  else if n0 = 0x6 then some (s.instr_ld_vx_nn x (s.opcode &&& 0x00FF))
  else if n0 = 0x7 then some (s.instr_add_vx_nn x (s.opcode &&& 0x00FF))
  else if n0 = 0x8 ∧ n = 0x0 then some (s.instr_ld_vx_vy x y)
  else if n0 = 0x8 ∧ n = 0x1 then some (s.instr_or_vx_vy x y)
  else if n0 = 0x8 ∧ n = 0x2 then some (s.instr_and_vx_vy x y)
  else if n0 = 0x8 ∧ n = 0x3 then some (s.instr_xor_vx_vy x y)
  else if n0 = 0x8 ∧ n = 0x4 then some (s.instr_add_vx_vy x y)
  else if n0 = 0x8 ∧ n = 0x5 then some (s.instr_sub_vx_vy x y)
  else if n0 = 0x8 ∧ n = 0x6 then some (s.instr_shr_vx_vy x y)
  else if n0 = 0x8 ∧ n = 0x7 then some (s.instr_subn_vx_vy x y)
  else if n0 = 0x8 ∧ n = 0xE then some (s.instr_shl_vx_vy x y)
  else if n0 = 0x9 ∧ n = 0x0 then some (s.instr_sne_vx_vy x y)
  else if n0 = 0xA then some (s.instr_ld_i_addr (s.opcode &&& 0x0FFF))
  else if n0 = 0xB then some (s.instr_jp_v0_addr (s.opcode &&& 0x0FFF))
  else if n0 = 0xC then some (s.instr_rnd_vx_nn r x (s.opcode &&& 0x00FF))
  else if n0 = 0xD then some (s.instr_drw_vx_vy_nn x y n)
  else if n0 = 0xE ∧ y = 0x9 ∧ n = 0xE then some (s.instr_skp_vx x)
  else if n0 = 0xE ∧ y = 0xA ∧ n = 0x1 then some (s.instr_sknp_vx x)
  else if n0 = 0xF ∧ y = 0x0 ∧ n = 0x7 then some (s.instr_ld_vx_dt x)
  else if n0 = 0xF ∧ y = 0x0 ∧ n = 0xA then some (s.instr_ld_vx_k x)
  else if n0 = 0xF ∧ y = 0x1 ∧ n = 0x5 then some (s.instr_ld_dt_vx x)
  else if n0 = 0xF ∧ y = 0x1 ∧ n = 0x8 then some (s.instr_ld_st_vx x)
  else if n0 = 0xF ∧ y = 0x1 ∧ n = 0xE then some (s.instr_add_i_vx x)
  else if n0 = 0xF ∧ y = 0x2 ∧ n = 0x9 then some (s.instr_ld_f_vx x)
  else if n0 = 0xF ∧ y = 0x3 ∧ n = 0x3 then some (s.instr_ld_b_vx x)
  else if n0 = 0xF ∧ y = 0x5 ∧ n = 0x5 then some (s.instr_ld_i_vx x)
  else if n0 = 0xF ∧ y = 0x6 ∧ n = 0x5 then some (s.instr_ld_vx_i x)
  else some s

/-- CPU::execute_opcode: decode the stored opcode into its four nibbles and
dispatch. -/
def execute_opcode (r : Nat) (s : CPU) : Option CPU :=
  dispatch r s ((s.opcode &&& 0xF000) >>> 12) ((s.opcode &&& 0x0F00) >>> 8)
    ((s.opcode &&& 0x00F0) >>> 4) (s.opcode &&& 0x000F)

/-- CPU::cpu_cycle: one fetch followed by one execute. -/
def cpu_cycle (r : Nat) (s : CPU) : Option CPU :=
  execute_opcode r s.fetch_opcode

end CPU

/-! ## Concrete machine states used as test fixtures -/

/-- A machine state with the given registers, program counter, memory and
keypad, everything else as at construction. -/
def mkState (v : List Nat) (pc : Nat) (memory : List Nat) (keys : List Bool) : CPU :=
  { opcode := 0, v := v, i := 0, pc := pc, memory := memory,
    display := Display.new, keypad := ⟨keys⟩, wait_for_key := none,
    stack := List.replicate STACK_SIZE 0, sp := 0,
    delay_timer := 0, sound_timer := 0 }

/-! ## Claim C7: register-register ADD (8xy4) -/

/-- Claim C7: for every pair of byte values a, b and register indices x, y
with x different from 15, executing opcode 8xy4 with Vx = a and Vy = b stores
(a + b) mod 256 in Vx and sets VF to 1 if a + b exceeds 255 and to 0
otherwise. -/
theorem C7_add_vx_vy (s : CPU) (x y a b : Nat) (hx : x < 16) (hy : y < 16)
    (hx15 : x ≠ 15) (hlen : s.v.length = 16)
    (ha : s.v.getD x 0 = a) (hb : s.v.getD y 0 = b) :
    (s.instr_add_vx_vy x y).v.getD x 0 = (a + b) % 256 ∧
    (s.instr_add_vx_vy x y).v.getD 15 0 = (if a + b > 255 then 1 else 0) := by
  unfold CPU.instr_add_vx_vy
  rw [ha, hb]
  constructor
  · simp only [CARRY_FLAG]
    rw [getD_set_ne _ _ _ (fun h => hx15 h.symm),
        getD_set_self _ _ _ _ (by rw [hlen]; exact hx)]
  · simp only [CARRY_FLAG]
    rw [getD_set_self _ _ _ _ (by rw [List.length_set, hlen]; norm_num)]

theorem C7_add_vx_vy_witness :
    (0 : Nat) < 16 ∧ (1 : Nat) < 16 ∧ (0 : Nat) ≠ 15 ∧
    ((mkState (((List.replicate 16 0).set 0 200).set 1 100) 0 [] []).instr_add_vx_vy 0 1).v.getD 0 0
      = (200 + 100) % 256 ∧
    ((mkState (((List.replicate 16 0).set 0 200).set 1 100) 0 [] []).instr_add_vx_vy 0 1).v.getD 15 0
      = (if 200 + 100 > 255 then 1 else 0) := by
  refine ⟨by decide, by decide, by decide, ?_⟩
  exact C7_add_vx_vy (mkState (((List.replicate 16 0).set 0 200).set 1 100) 0 [] [])
    0 1 200 100 (by decide) (by decide) (by decide) (by decide) (by decide) (by decide)

/-! ## Claim C8: shift instructions (8xy6, 8xyE) -/

/-- Claim C8: for every source byte S and register indices x, y with x and y
both different from 15, opcode 8xy6 with Vy = S sets VF to S AND 0x80 (the
un-normalized high bit of the source) and stores S shifted right one bit in
Vx; opcode 8xyE with Vy = S sets VF to S AND 0x01 and stores (S shifted left
one bit) mod 256 in Vx. -/
theorem C8_shifts (s : CPU) (x y S : Nat) (hx : x < 16) (hy : y < 16)
    (hx15 : x ≠ 15) (hy15 : y ≠ 15) (hlen : s.v.length = 16)
    (hS : s.v.getD y 0 = S) :
    (s.instr_shr_vx_vy x y).v.getD x 0 = S >>> 1 ∧
    (s.instr_shr_vx_vy x y).v.getD 15 0 = S &&& 0x80 ∧
    (s.instr_shl_vx_vy x y).v.getD x 0 = (S <<< 1) % 256 ∧
    (s.instr_shl_vx_vy x y).v.getD 15 0 = S &&& 0x01 := by
  unfold CPU.instr_shr_vx_vy CPU.instr_shl_vx_vy
  simp only [CARRY_FLAG]
  have hy' : (s.v.set 15 (s.v.getD y 0 &&& 0x80)).getD y 0 = S := by
    rw [getD_set_ne _ _ _ (fun h => hy15 h.symm), hS]
  have hy'' : (s.v.set 15 (s.v.getD y 0 &&& 0x01)).getD y 0 = S := by
    rw [getD_set_ne _ _ _ (fun h => hy15 h.symm), hS]
  refine ⟨?_, ?_, ?_, ?_⟩
  · rw [hy', getD_set_self _ _ _ _ (by rw [List.length_set, hlen]; exact hx)]
  · rw [getD_set_ne _ _ _ hx15,
        getD_set_self _ _ _ _ (by rw [hlen]; norm_num), hS]
  · rw [hy'', getD_set_self _ _ _ _ (by rw [List.length_set, hlen]; exact hx)]
  · rw [getD_set_ne _ _ _ hx15,
        getD_set_self _ _ _ _ (by rw [hlen]; norm_num), hS]

theorem C8_shifts_witness :
    (0 : Nat) < 16 ∧ (1 : Nat) < 16 ∧ (0 : Nat) ≠ 15 ∧ (1 : Nat) ≠ 15 ∧
    (((mkState ((List.replicate 16 0).set 1 0x95) 0 [] []).instr_shr_vx_vy 0 1).v.getD 0 0
        = 0x95 >>> 1 ∧
     ((mkState ((List.replicate 16 0).set 1 0x95) 0 [] []).instr_shr_vx_vy 0 1).v.getD 15 0
        = 0x95 &&& 0x80 ∧
     ((mkState ((List.replicate 16 0).set 1 0x95) 0 [] []).instr_shl_vx_vy 0 1).v.getD 0 0
        = (0x95 <<< 1) % 256 ∧
     ((mkState ((List.replicate 16 0).set 1 0x95) 0 [] []).instr_shl_vx_vy 0 1).v.getD 15 0
        = 0x95 &&& 0x01) := by
  refine ⟨by decide, by decide, by decide, by decide, ?_⟩
  exact C8_shifts (mkState ((List.replicate 16 0).set 1 0x95) 0 [] []) 0 1 0x95
    (by decide) (by decide) (by decide) (by decide) (by decide) (by decide)

/-! ## Claim C1: SUB (8xy5) and SUBN (8xy7) borrow flag -/

/-- Claim C1 (code bug): the claim states that SUB with Vx = a, Vy = b sets
VF to 0 exactly when a is below b (a borrow occurs), matching the handler's
own documentation. The code instead reinterprets both bytes as i8 before
subtracting, so for V0 = 200, V1 = 1 the opcode 8015 stores 199, which is
(200 - 1) mod 256 as claimed, but sets VF = 0 although 200 is not below 1;
SUBN (8017) with V0 = 1, V1 = 200 likewise stores 199 and sets VF = 0
although Vy = 200 is not below Vx = 1. -/
theorem C1_sub_flag_bug :
    (let s := mkState (((List.replicate 16 0).set 0 200).set 1 1) 0 [0x80, 0x15]
       (List.replicate 16 false)
     let s' := (CPU.cpu_cycle 0 s).getD s
     s'.v.getD 0 0 = 199 ∧ s'.v.getD 15 0 = 0 ∧ ¬ (200 : Nat) < 1) ∧
    (let t := mkState (((List.replicate 16 0).set 0 1).set 1 200) 0 [0x80, 0x17]
       (List.replicate 16 false)
     let t' := (CPU.cpu_cycle 0 t).getD t
     t'.v.getD 0 0 = 199 ∧ t'.v.getD 15 0 = 0 ∧ ¬ (200 : Nat) < 1) := by
  constructor <;> exact ⟨by decide, by decide, by decide⟩

/-! ## Claim C3: which handlers write the flag register -/

/-- Claim C3 (counterexample): the claim says the add-immediate handler 7xnn
writes register 15 on every execution, overwriting the previous value. It
does not: running opcode 7001 from two states that differ only in V15
(0x42 versus 0x43) leaves V15 at its two distinct old values, so V15 is not
overwritten by 7xnn. -/
theorem C3_add_nn_counterexample :
    (let a := mkState ((List.replicate 16 0).set 15 0x42) 0 [0x70, 0x01]
       (List.replicate 16 false)
     ((CPU.cpu_cycle 0 a).getD a).v.getD 15 0 = 0x42) ∧
    (let b := mkState ((List.replicate 16 0).set 15 0x43) 0 [0x70, 0x01]
       (List.replicate 16 false)
     ((CPU.cpu_cycle 0 b).getD b).v.getD 15 0 = 0x43) ∧
    (0x42 : Nat) ≠ 0x43 := by
  exact ⟨by decide, by decide, by decide⟩

/-- Claim C3 (amended): the register-register arithmetic and shift handlers
8xy4, 8xy5, 8xy6, 8xy7 and 8xyE write register 15 on every execution: the
add and subtract forms end with VF equal to their flag value, and the shift
forms end with VF equal to the flag (source AND 0x80, or source AND 0x01)
when x differs from 15, or equal to the shifted result when x is 15 (the
destination write lands on VF right after the flag write, re-reading Vy in
between); the add-immediate handler 7xnn never writes register 15 when x
differs from 15: it leaves it unchanged. -/
theorem C3_flag_writes (s : CPU) (x y nn : Nat) (hx : x < 16) (hy : y < 16)
    (hlen : s.v.length = 16) :
    ((s.instr_add_vx_vy x y).v.getD 15 0
        = (if s.v.getD x 0 + s.v.getD y 0 > 255 then 1 else 0)) ∧
    ((s.instr_sub_vx_vy x y).v.getD 15 0
        = (if i8_wrap (i8_of_u8 (s.v.getD x 0) - i8_of_u8 (s.v.getD y 0)) < 0 then 0 else 1)) ∧
    ((s.instr_subn_vx_vy x y).v.getD 15 0
        = (if i8_wrap (i8_of_u8 (s.v.getD y 0) - i8_of_u8 (s.v.getD x 0)) < 0 then 0 else 1)) ∧
    ((s.instr_shr_vx_vy x y).v.getD 15 0
        = (if x = 15 then
            (if y = 15 then (s.v.getD 15 0 &&& 0x80) >>> 1 else s.v.getD y 0 >>> 1)
          else s.v.getD y 0 &&& 0x80)) ∧
    ((s.instr_shl_vx_vy x y).v.getD 15 0
        = (if x = 15 then
            (if y = 15 then ((s.v.getD 15 0 &&& 0x01) <<< 1) % 256
             else (s.v.getD y 0 <<< 1) % 256)
          else s.v.getD y 0 &&& 0x01)) ∧
    (x ≠ 15 → (s.instr_add_vx_nn x nn).v.getD 15 0 = s.v.getD 15 0) := by
  unfold CPU.instr_add_vx_vy CPU.instr_sub_vx_vy CPU.instr_subn_vx_vy
    CPU.instr_shr_vx_vy CPU.instr_shl_vx_vy CPU.instr_add_vx_nn
  simp only [CARRY_FLAG]
  have h15s : (15 : Nat) < s.v.length := by rw [hlen]; norm_num
  refine ⟨?_, ?_, ?_, ?_, ?_, ?_⟩
  · rw [getD_set_self _ _ _ _ (by rw [List.length_set, hlen]; norm_num)]
  · rw [getD_set_self _ _ _ _ (by rw [List.length_set, hlen]; norm_num)]
  · rw [getD_set_self _ _ _ _ (by rw [List.length_set, hlen]; norm_num)]
  · by_cases hx15 : x = 15
    · subst hx15
      rw [if_pos rfl,
          getD_set_self _ _ _ _ (by rw [List.length_set, hlen]; norm_num)]
      by_cases hy15 : y = 15
      · subst hy15
        rw [if_pos rfl, getD_set_self _ _ _ _ h15s]
      · rw [if_neg hy15, getD_set_ne _ _ _ (fun h => hy15 h.symm)]
    · rw [if_neg hx15, getD_set_ne _ _ _ hx15,
          getD_set_self _ _ _ _ h15s]
  · by_cases hx15 : x = 15
    · subst hx15
      rw [if_pos rfl,
          getD_set_self _ _ _ _ (by rw [List.length_set, hlen]; norm_num)]
      by_cases hy15 : y = 15
      · subst hy15
        rw [if_pos rfl, getD_set_self _ _ _ _ h15s]
      · rw [if_neg hy15, getD_set_ne _ _ _ (fun h => hy15 h.symm)]
    · rw [if_neg hx15, getD_set_ne _ _ _ hx15,
          getD_set_self _ _ _ _ h15s]
  · intro hx15
    rw [getD_set_ne _ _ _ hx15]

theorem C3_flag_writes_witness :
    (0 : Nat) < 16 ∧ (1 : Nat) < 16 ∧
    (let s := mkState (((List.replicate 16 0).set 0 200).set 1 1) 0 [] []
     ((s.instr_add_vx_vy 0 1).v.getD 15 0
        = (if s.v.getD 0 0 + s.v.getD 1 0 > 255 then 1 else 0)) ∧
     ((s.instr_sub_vx_vy 0 1).v.getD 15 0
        = (if i8_wrap (i8_of_u8 (s.v.getD 0 0) - i8_of_u8 (s.v.getD 1 0)) < 0 then 0 else 1)) ∧
     ((s.instr_subn_vx_vy 0 1).v.getD 15 0
        = (if i8_wrap (i8_of_u8 (s.v.getD 1 0) - i8_of_u8 (s.v.getD 0 0)) < 0 then 0 else 1)) ∧
     ((s.instr_shr_vx_vy 0 1).v.getD 15 0
        = (if (0 : Nat) = 15 then
            (if (1 : Nat) = 15 then (s.v.getD 15 0 &&& 0x80) >>> 1 else s.v.getD 1 0 >>> 1)
          else s.v.getD 1 0 &&& 0x80)) ∧
     ((s.instr_shl_vx_vy 0 1).v.getD 15 0
        = (if (0 : Nat) = 15 then
            (if (1 : Nat) = 15 then ((s.v.getD 15 0 &&& 0x01) <<< 1) % 256
             else (s.v.getD 1 0 <<< 1) % 256)
          else s.v.getD 1 0 &&& 0x01)) ∧
     ((0 : Nat) ≠ 15 → (s.instr_add_vx_nn 0 7).v.getD 15 0 = s.v.getD 15 0)) := by
  refine ⟨by decide, by decide, ?_⟩
  exact C3_flag_writes (mkState (((List.replicate 16 0).set 0 200).set 1 1) 0 [] [])
    0 1 7 (by decide) (by decide) (by decide)

/-! ## Claim C6: stack overflow and underflow -/

/-- Claim C6 (counterexample): the claim says RETURN with stack pointer 0 and
CALL with stack pointer 16 are defined, recoverable, reported failures. In
the code they are Rust panics (unchecked decrement of the stack pointer, and
an out-of-bounds index into the 16-entry stack), modelled as the abnormal
result none: the cycle aborts instead of producing a successor state, so the
failure is not recoverable. -/
theorem C6_stack_panic_counterexample :
    CPU.cpu_cycle 0 (mkState (List.replicate 16 0) 0 [0x00, 0xEE]
        (List.replicate 16 false)) = none ∧
    CPU.cpu_cycle 0 { mkState (List.replicate 16 0) 0 [0x2F, 0xFF]
        (List.replicate 16 false) with sp := 16 } = none := by
  exact ⟨by decide, by decide⟩

/-- Claim C6 (amended): the stack pointer is never silently wrapped and no
slot outside the 16-entry stack is ever used: RETURN with stack pointer 0
and CALL with stack pointer 16 abort the cycle with a Rust panic (modelled
as none) instead of wrapping, while in-range stack pointers push and pop
normally. The failure is a crash, not a reported recoverable error. -/
theorem C6_stack_bounds (s : CPU) (addr : Nat) :
    (s.sp = 0 → s.instr_ret = none) ∧
    (s.sp = STACK_SIZE → s.instr_call_addr addr = none) ∧
    (1 ≤ s.sp → s.sp ≤ STACK_SIZE → s.instr_ret
        = some { s with sp := s.sp - 1, pc := s.stack.getD (s.sp - 1) 0 + 2 }) ∧
    (s.sp < STACK_SIZE → s.instr_call_addr addr
        = some { s with stack := s.stack.set s.sp (s.pc % 65536), sp := s.sp + 1,
                        pc := addr }) := by
  unfold CPU.instr_ret CPU.instr_call_addr CPU.instr_jp_addr
  refine ⟨?_, ?_, ?_, ?_⟩
  · intro h; simp [h]
  · intro h; simp [h, STACK_SIZE]
  · intro h1 h2
    rw [if_neg]
    omega
  · intro h
    rw [if_neg (by omega)]

theorem C6_stack_bounds_witness :
    ((mkState (List.replicate 16 0) 0 [] []).sp = 0 →
      (mkState (List.replicate 16 0) 0 [] []).instr_ret = none) ∧
    ((mkState (List.replicate 16 0) 0 [] []).instr_ret = none) ∧
    ({ mkState (List.replicate 16 0) 0 [] [] with sp := 16 }).instr_call_addr 0x234 = none ∧
    (let s3 := { mkState (List.replicate 16 0) 0 [] [] with sp := 3 }
     s3.instr_ret = some { s3 with sp := s3.sp - 1, pc := s3.stack.getD (s3.sp - 1) 0 + 2 }) ∧
    (let s4 := { mkState (List.replicate 16 0) 0x206 [] [] with sp := 4 }
     s4.instr_call_addr 0x345
        = some { s4 with stack := s4.stack.set s4.sp (s4.pc % 65536), sp := s4.sp + 1,
                         pc := 0x345 }) := by
  refine ⟨(C6_stack_bounds _ 0).1, ?_, ?_, ?_, ?_⟩
  · exact (C6_stack_bounds _ 0).1 rfl
  · exact (C6_stack_bounds _ 0x234).2.1 rfl
  · exact (C6_stack_bounds _ 0).2.2.1 (by decide) (by decide)
  · exact (C6_stack_bounds _ 0x345).2.2.2 (by decide)

/-! ## Claim C2: wait-for-key -/

set_option maxRecDepth 10000 in
/-- Claim C2 (code bug): the claim says that once the wait issued by Fx0A is
resolved by stop_waiting_for_key with a pressed key, the program counter
advances from p to p + 2 on the next cpu_cycle. In the code the Fx0A handler
never advances the program counter, so after resolution the next cycle
re-fetches the same Fx0A instruction, re-enters the wait and leaves the
program counter at p forever. Concretely: with F00A at address 0x200 and key
5 pressed, one cycle enters the wait with pc still 0x200 and V0 untouched,
resolving with key 5 stores 5 in V0 and clears the wait, and the next cycle
leaves pc at 0x200 (not 0x202) with the wait re-armed. -/
theorem C2_wait_for_key_stall :
    (let s0 := mkState (List.replicate 16 0) 0x200
       (List.replicate 512 0 ++ [0xF0, 0x0A]) ((List.replicate 16 false).set 5 true)
     let s1 := (CPU.cpu_cycle 0 s0).getD s0
     let s2 := s1.stop_waiting_for_key 5
     let s3 := (CPU.cpu_cycle 0 s2).getD s2
     s1.wait_for_key = some 0 ∧ s1.pc = 0x200 ∧ s1.v.getD 0 0 = 0 ∧
     s2.v.getD 0 0 = 5 ∧ s2.wait_for_key = none ∧ s2.pc = 0x200 ∧
     s3.pc = 0x200 ∧ s3.wait_for_key = some 0) ∧ (0x200 : Nat) ≠ 0x202 := by
  constructor
  · exact ⟨by decide, by decide, by decide, by decide, by decide, by decide,
      by decide, by decide⟩
  · decide

/-! ## Claim C5: unrecognized instruction words -/

/-- Does a nibble tuple match one of the dispatch patterns of
CPU::execute_opcode? -/
def recognized (n0 n1 n2 n3 : Nat) : Bool :=
  (n0 == 0x0 && n1 == 0x0 && n2 == 0xE && (n3 == 0x0 || n3 == 0xE)) ||
  (n0 == 0x1) || (n0 == 0x2) || (n0 == 0x3) || (n0 == 0x4) ||
  (n0 == 0x5 && n3 == 0x0) ||
  (n0 == 0x6) || (n0 == 0x7) ||
  (n0 == 0x8 && (n3 == 0x0 || n3 == 0x1 || n3 == 0x2 || n3 == 0x3 || n3 == 0x4 ||
                 n3 == 0x5 || n3 == 0x6 || n3 == 0x7 || n3 == 0xE)) ||
  (n0 == 0x9 && n3 == 0x0) ||
  (n0 == 0xA) || (n0 == 0xB) || (n0 == 0xC) || (n0 == 0xD) ||
  (n0 == 0xE && ((n2 == 0x9 && n3 == 0xE) || (n2 == 0xA && n3 == 0x1))) ||
  (n0 == 0xF && ((n2 == 0x0 && n3 == 0x7) || (n2 == 0x0 && n3 == 0xA) ||
                 (n2 == 0x1 && n3 == 0x5) || (n2 == 0x1 && n3 == 0x8) ||
                 (n2 == 0x1 && n3 == 0xE) || (n2 == 0x2 && n3 == 0x9) ||
                 (n2 == 0x3 && n3 == 0x3) || (n2 == 0x5 && n3 == 0x5) ||
                 (n2 == 0x6 && n3 == 0x5)))

set_option maxHeartbeats 1000000 in
/-- A nibble tuple matching none of the dispatch patterns falls to the
default arm, which returns the state untouched. -/
theorem dispatch_default (r : Nat) (s : CPU) (n0 n1 n2 n3 : Nat)
    (h : recognized n0 n1 n2 n3 = false) :
    CPU.dispatch r s n0 n1 n2 n3 = some s := by
  have H : ¬ (recognized n0 n1 n2 n3 = true) := by simp [h]
  have c01 : ¬ (n0 = 0x0 ∧ n1 = 0x0 ∧ n2 = 0xE ∧ n3 = 0x0) := by
    rintro ⟨rfl, rfl, rfl, rfl⟩; exact H (by decide)
  have c02 : ¬ (n0 = 0x0 ∧ n1 = 0x0 ∧ n2 = 0xE ∧ n3 = 0xE) := by
    rintro ⟨rfl, rfl, rfl, rfl⟩; exact H (by decide)
  have c03 : ¬ n0 = 0x1 := by rintro rfl; exact H (by simp [recognized])
  have c04 : ¬ n0 = 0x2 := by rintro rfl; exact H (by simp [recognized])
  have c05 : ¬ n0 = 0x3 := by rintro rfl; exact H (by simp [recognized])
  have c06 : ¬ n0 = 0x4 := by rintro rfl; exact H (by simp [recognized])
  have c07 : ¬ (n0 = 0x5 ∧ n3 = 0x0) := by
    rintro ⟨rfl, rfl⟩; exact H (by simp [recognized])
  have c08 : ¬ n0 = 0x6 := by rintro rfl; exact H (by simp [recognized])
  have c09 : ¬ n0 = 0x7 := by rintro rfl; exact H (by simp [recognized])
  have c10 : ¬ (n0 = 0x8 ∧ n3 = 0x0) := by
    rintro ⟨rfl, rfl⟩; exact H (by simp [recognized])
  have c11 : ¬ (n0 = 0x8 ∧ n3 = 0x1) := by
    rintro ⟨rfl, rfl⟩; exact H (by simp [recognized])
  have c12 : ¬ (n0 = 0x8 ∧ n3 = 0x2) := by
    rintro ⟨rfl, rfl⟩; exact H (by simp [recognized])
  have c13 : ¬ (n0 = 0x8 ∧ n3 = 0x3) := by
    rintro ⟨rfl, rfl⟩; exact H (by simp [recognized])
  have c14 : ¬ (n0 = 0x8 ∧ n3 = 0x4) := by
    rintro ⟨rfl, rfl⟩; exact H (by simp [recognized])
  have c15 : ¬ (n0 = 0x8 ∧ n3 = 0x5) := by
    rintro ⟨rfl, rfl⟩; exact H (by simp [recognized])
  have c16 : ¬ (n0 = 0x8 ∧ n3 = 0x6) := by
    rintro ⟨rfl, rfl⟩; exact H (by simp [recognized])
  have c17 : ¬ (n0 = 0x8 ∧ n3 = 0x7) := by
    rintro ⟨rfl, rfl⟩; exact H (by simp [recognized])
  have c18 : ¬ (n0 = 0x8 ∧ n3 = 0xE) := by
    rintro ⟨rfl, rfl⟩; exact H (by simp [recognized])
  have c19 : ¬ (n0 = 0x9 ∧ n3 = 0x0) := by
    rintro ⟨rfl, rfl⟩; exact H (by simp [recognized])
  have c20 : ¬ n0 = 0xA := by rintro rfl; exact H (by simp [recognized])
  have c21 : ¬ n0 = 0xB := by rintro rfl; exact H (by simp [recognized])
  have c22 : ¬ n0 = 0xC := by rintro rfl; exact H (by simp [recognized])
  have c23 : ¬ n0 = 0xD := by rintro rfl; exact H (by simp [recognized])
  have c24 : ¬ (n0 = 0xE ∧ n2 = 0x9 ∧ n3 = 0xE) := by
    rintro ⟨rfl, rfl, rfl⟩; exact H (by simp [recognized])
  have c25 : ¬ (n0 = 0xE ∧ n2 = 0xA ∧ n3 = 0x1) := by
    rintro ⟨rfl, rfl, rfl⟩; exact H (by simp [recognized])
  have c26 : ¬ (n0 = 0xF ∧ n2 = 0x0 ∧ n3 = 0x7) := by
    rintro ⟨rfl, rfl, rfl⟩; exact H (by simp [recognized])
  have c27 : ¬ (n0 = 0xF ∧ n2 = 0x0 ∧ n3 = 0xA) := by
    rintro ⟨rfl, rfl, rfl⟩; exact H (by simp [recognized])
  have c28 : ¬ (n0 = 0xF ∧ n2 = 0x1 ∧ n3 = 0x5) := by
    rintro ⟨rfl, rfl, rfl⟩; exact H (by simp [recognized])
  have c29 : ¬ (n0 = 0xF ∧ n2 = 0x1 ∧ n3 = 0x8) := by
    rintro ⟨rfl, rfl, rfl⟩; exact H (by simp [recognized])
  have c30 : ¬ (n0 = 0xF ∧ n2 = 0x1 ∧ n3 = 0xE) := by
    rintro ⟨rfl, rfl, rfl⟩; exact H (by simp [recognized])
  have c31 : ¬ (n0 = 0xF ∧ n2 = 0x2 ∧ n3 = 0x9) := by
    rintro ⟨rfl, rfl, rfl⟩; exact H (by simp [recognized])
  have c32 : ¬ (n0 = 0xF ∧ n2 = 0x3 ∧ n3 = 0x3) := by
    rintro ⟨rfl, rfl, rfl⟩; exact H (by simp [recognized])
  have c33 : ¬ (n0 = 0xF ∧ n2 = 0x5 ∧ n3 = 0x5) := by
    rintro ⟨rfl, rfl, rfl⟩; exact H (by simp [recognized])
  have c34 : ¬ (n0 = 0xF ∧ n2 = 0x6 ∧ n3 = 0x5) := by
    rintro ⟨rfl, rfl, rfl⟩; exact H (by simp [recognized])
  unfold CPU.dispatch
  rw [if_neg c01, if_neg c02, if_neg c03, if_neg c04, if_neg c05, if_neg c06,
      if_neg c07, if_neg c08, if_neg c09, if_neg c10, if_neg c11, if_neg c12,
      if_neg c13, if_neg c14, if_neg c15, if_neg c16, if_neg c17, if_neg c18,
      if_neg c19, if_neg c20, if_neg c21, if_neg c22, if_neg c23, if_neg c24,
      if_neg c25, if_neg c26, if_neg c27, if_neg c28, if_neg c29, if_neg c30,
      if_neg c31, if_neg c32, if_neg c33, if_neg c34]

/-- Claim C5: for every 16-bit instruction word that matches none of the
dispatch patterns, executing a cycle on it only latches the fetched word
into the opcode field: the program counter does not advance and the
registers, index register, memory, stack and stack pointer, both timers, the
wait-for-key state, the display and the keypad are all unchanged. -/
theorem C5_unrecognized_noop (r : Nat) (s : CPU)
    (h : recognized
      ((((s.memory.getD s.pc 0) <<< 8 ||| s.memory.getD (s.pc + 1) 0) &&& 0xF000) >>> 12)
      ((((s.memory.getD s.pc 0) <<< 8 ||| s.memory.getD (s.pc + 1) 0) &&& 0x0F00) >>> 8)
      ((((s.memory.getD s.pc 0) <<< 8 ||| s.memory.getD (s.pc + 1) 0) &&& 0x00F0) >>> 4)
      (((s.memory.getD s.pc 0) <<< 8 ||| s.memory.getD (s.pc + 1) 0) &&& 0x000F) = false) :
    CPU.cpu_cycle r s
      = some { s with opcode := (s.memory.getD s.pc 0) <<< 8 ||| s.memory.getD (s.pc + 1) 0 } := by
  unfold CPU.cpu_cycle CPU.execute_opcode CPU.fetch_opcode
  exact dispatch_default r _ _ _ _ _ h

theorem C5_unrecognized_noop_witness :
    (recognized
      ((((( mkState (List.replicate 16 0) 0 [0x00, 0x00] (List.replicate 16 false)).memory.getD 0 0) <<< 8 |||
         (mkState (List.replicate 16 0) 0 [0x00, 0x00] (List.replicate 16 false)).memory.getD 1 0) &&& 0xF000) >>> 12)
      ((((( mkState (List.replicate 16 0) 0 [0x00, 0x00] (List.replicate 16 false)).memory.getD 0 0) <<< 8 |||
         (mkState (List.replicate 16 0) 0 [0x00, 0x00] (List.replicate 16 false)).memory.getD 1 0) &&& 0x0F00) >>> 8)
      ((((( mkState (List.replicate 16 0) 0 [0x00, 0x00] (List.replicate 16 false)).memory.getD 0 0) <<< 8 |||
         (mkState (List.replicate 16 0) 0 [0x00, 0x00] (List.replicate 16 false)).memory.getD 1 0) &&& 0x00F0) >>> 4)
      (((( mkState (List.replicate 16 0) 0 [0x00, 0x00] (List.replicate 16 false)).memory.getD 0 0) <<< 8 |||
         (mkState (List.replicate 16 0) 0 [0x00, 0x00] (List.replicate 16 false)).memory.getD 1 0) &&& 0x000F) = false) ∧
    CPU.cpu_cycle 0 (mkState (List.replicate 16 0) 0 [0x00, 0x00] (List.replicate 16 false))
      = some { mkState (List.replicate 16 0) 0 [0x00, 0x00] (List.replicate 16 false) with
          opcode := ((mkState (List.replicate 16 0) 0 [0x00, 0x00] (List.replicate 16 false)).memory.getD 0 0) <<< 8 |||
            (mkState (List.replicate 16 0) 0 [0x00, 0x00] (List.replicate 16 false)).memory.getD 1 0 } := by
  refine ⟨by decide, ?_⟩
  exact C5_unrecognized_noop 0
    (mkState (List.replicate 16 0) 0 [0x00, 0x00] (List.replicate 16 false)) (by decide)

/-! ## Claim C9: register block store and load (Fx55, Fx65) -/

theorem length_foldl_set (base cnt : Nat) (f : Nat → Nat) (l : List Nat) :
    ((List.range cnt).foldl (fun m j => m.set (base + j) (f j)) l).length = l.length := by
  induction cnt with
  | zero => simp
  | succ n ih =>
    rw [List.range_succ, List.foldl_append]
    simp [ih]

theorem foldl_set_getD_in (base cnt k : Nat) (f : Nat → Nat) (l : List Nat)
    (hcnt : base + cnt ≤ l.length) (hk : k < cnt) :
    ((List.range cnt).foldl (fun m j => m.set (base + j) (f j)) l).getD (base + k) 0
      = f k := by
  induction cnt with
  | zero => omega
  | succ n ih =>
    rw [List.range_succ, List.foldl_append]
    simp only [List.foldl_cons, List.foldl_nil]
    rcases Nat.lt_or_ge k n with hkn | hkn
    · rw [getD_set_ne _ _ _ (by omega), ih (by omega) hkn]
    · have hk' : k = n := by omega
      subst hk'
      rw [getD_set_self _ _ _ _ (by rw [length_foldl_set]; omega)]

theorem foldl_set_getD_out (base cnt a : Nat) (f : Nat → Nat) (l : List Nat)
    (ha : a < base ∨ base + cnt ≤ a) :
    ((List.range cnt).foldl (fun m j => m.set (base + j) (f j)) l).getD a 0
      = l.getD a 0 := by
  induction cnt with
  | zero => simp
  | succ n ih =>
    rw [List.range_succ, List.foldl_append]
    simp only [List.foldl_cons, List.foldl_nil]
    rw [getD_set_ne _ _ _ (by omega), ih (by omega)]

/-- Claim C9: for every x below 16 and index register value I with
I + x + 1 at most 4096, the block store Fx55 writes registers V0 through Vx
to memory at I through I + x, leaves the rest of memory unchanged, and ends
with the index register equal to I + x + 1; the block load Fx65 performs the
converse copy, leaves the higher registers unchanged, and ends with the same
index register value; and storing registers 0 through x then loading them
back from the same region (index register restored to I in between)
reproduces the original register values V0 through Vx. -/
theorem C9_block_store_load (s : CPU) (x : Nat) (hx : x < 16)
    (hI : s.i + x + 1 ≤ 4096) (hmem : s.memory.length = 4096)
    (hv : s.v.length = 16) :
    (∀ k, k ≤ x → (s.instr_ld_i_vx x).memory.getD (s.i + k) 0 = s.v.getD k 0) ∧
    ((s.instr_ld_i_vx x).i = s.i + x + 1) ∧
    (∀ a, a < s.i ∨ s.i + x + 1 ≤ a →
      (s.instr_ld_i_vx x).memory.getD a 0 = s.memory.getD a 0) ∧
    (∀ k, k ≤ x → (s.instr_ld_vx_i x).v.getD k 0 = s.memory.getD (s.i + k) 0) ∧
    ((s.instr_ld_vx_i x).i = s.i + x + 1) ∧
    (∀ k, x < k → (s.instr_ld_vx_i x).v.getD k 0 = s.v.getD k 0) ∧
    (∀ k, k ≤ x →
      (({ s.instr_ld_i_vx x with i := s.i }).instr_ld_vx_i x).v.getD k 0
        = s.v.getD k 0) := by
  have hload : ∀ (t : CPU), t.v.length = 16 →
      ∀ k, k ≤ x → (t.instr_ld_vx_i x).v.getD k 0 = t.memory.getD (t.i + k) 0 := by
    intro t hlen k hk
    simp only [CPU.instr_ld_vx_i]
    have hfun : (fun (vv : List Nat) (j : Nat) => vv.set j (t.memory.getD (t.i + j) 0))
        = (fun (vv : List Nat) (j : Nat) => vv.set (0 + j) (t.memory.getD (t.i + j) 0)) := by
      funext vv j; rw [Nat.zero_add]
    rw [hfun]
    have := foldl_set_getD_in 0 (x + 1) k (fun j => t.memory.getD (t.i + j) 0) t.v
      (by omega) (by omega)
    rw [Nat.zero_add] at this
    exact this
  have hstore_in : ∀ k, k ≤ x →
      (s.instr_ld_i_vx x).memory.getD (s.i + k) 0 = s.v.getD k 0 := by
    intro k hk
    simp only [CPU.instr_ld_i_vx]
    exact foldl_set_getD_in s.i (x + 1) k (fun j => s.v.getD j 0) s.memory
      (by omega) (by omega)
  refine ⟨hstore_in, by simp [CPU.instr_ld_i_vx], ?_, ?_, by simp [CPU.instr_ld_vx_i], ?_, ?_⟩
  · intro a ha
    simp only [CPU.instr_ld_i_vx]
    exact foldl_set_getD_out s.i (x + 1) a (fun j => s.v.getD j 0) s.memory (by omega)
  · intro k hk
    exact hload s hv k hk
  · intro k hk
    simp only [CPU.instr_ld_vx_i]
    have hfun : (fun (vv : List Nat) (j : Nat) => vv.set j (s.memory.getD (s.i + j) 0))
        = (fun (vv : List Nat) (j : Nat) => vv.set (0 + j) (s.memory.getD (s.i + j) 0)) := by
      funext vv j; rw [Nat.zero_add]
    rw [hfun]
    exact foldl_set_getD_out 0 (x + 1) k (fun j => s.memory.getD (s.i + j) 0) s.v
      (by omega)
  · intro k hk
    have hvlen : ({ s.instr_ld_i_vx x with i := s.i }).v.length = 16 := by
      simp [CPU.instr_ld_i_vx, hv]
    have h1 := hload { s.instr_ld_i_vx x with i := s.i } hvlen k hk
    rw [h1]
    show (s.instr_ld_i_vx x).memory.getD (s.i + k) 0 = s.v.getD k 0
    exact hstore_in k hk

set_option maxRecDepth 40000 in
theorem C9_block_store_load_witness :
    (2 : Nat) < 16 ∧
    (let s := { mkState (((List.replicate 16 0).set 0 11).set 1 22 |>.set 2 33) 0
        (List.replicate 4096 0) [] with i := 0x300 }
     s.i + 2 + 1 ≤ 4096 ∧ s.memory.length = 4096 ∧ s.v.length = 16 ∧
     ((∀ k, k ≤ 2 → (s.instr_ld_i_vx 2).memory.getD (s.i + k) 0 = s.v.getD k 0) ∧
      ((s.instr_ld_i_vx 2).i = s.i + 2 + 1) ∧
      (∀ a, a < s.i ∨ s.i + 2 + 1 ≤ a →
        (s.instr_ld_i_vx 2).memory.getD a 0 = s.memory.getD a 0) ∧
      (∀ k, k ≤ 2 → (s.instr_ld_vx_i 2).v.getD k 0 = s.memory.getD (s.i + k) 0) ∧
      ((s.instr_ld_vx_i 2).i = s.i + 2 + 1) ∧
      (∀ k, 2 < k → (s.instr_ld_vx_i 2).v.getD k 0 = s.v.getD k 0) ∧
      (∀ k, k ≤ 2 →
        (({ s.instr_ld_i_vx 2 with i := s.i }).instr_ld_vx_i 2).v.getD k 0
          = s.v.getD k 0))) := by
  refine ⟨by decide, by decide, by exact List.length_replicate 4096 0, by decide, ?_⟩
  exact C9_block_store_load _ 2 (by decide) (by decide)
    (by exact List.length_replicate 4096 0) (by decide)

/-! ## Claim C10: the framebuffer is everywhere 0 or 1 -/

/-- Every cell of a framebuffer grid holds 0 or 1 (out-of-range reads give
the default 0). -/
def cellsBinary (m : List (List Nat)) : Prop :=
  ∀ r c, (m.getD r []).getD c 0 = 0 ∨ (m.getD r []).getD c 0 = 1

theorem getD_replicate {α : Type} (n i : Nat) (a d : α) :
    (List.replicate n a).getD i d = if i < n then a else d := by
  rw [List.getD_eq_getElem?_getD, List.getElem?_replicate]
  split <;> rfl

theorem foldl_preserve {α β : Type} (P : α → Prop) (g : α → β → α)
    (hg : ∀ a b, P a → P (g a b)) :
    ∀ (l : List β) (a : α), P a → P (l.foldl g a) := by
  intro l
  induction l with
  | nil => intro a ha; exact ha
  | cons b t ih => intro a ha; exact ih (g a b) (hg a b ha)

theorem drawStep_preserves_binary (x y : Nat) (sprite : List Nat)
    (st : List (List Nat) × Bool) (ji : Nat × Nat)
    (h : cellsBinary st.1) : cellsBinary (Display.drawStep x y sprite st ji).1 := by
  by_cases hbit : sprite.getD ji.1 0 &&& (0x80 >>> ji.2) ≠ 0
  · simp only [Display.drawStep, if_pos hbit]
    intro r c
    rw [getD_set_cases]
    split
    · rw [getD_set_cases]
      split
      · rcases h ((y + ji.1) % DISPLAY_HEIGHT) ((x + ji.2) % DISPLAY_WIDTH) with h0 | h1
        · rw [h0]; right; rfl
        · rw [h1]; left; rfl
      · exact h ((y + ji.1) % DISPLAY_HEIGHT) c
    · exact h r c
  · simp only [Display.drawStep, if_neg hbit]
    exact h

/-- Claim C10: every cell of the framebuffer always holds exactly 0 or 1 --
the invariant holds after Display::new and Display::clear and is preserved
by every Display::draw; and under the invariant the collision test
(comparing a cell to 0x01) tests exactly whether the cell is lit, and the
XOR with 0x01 toggles a cell between lit and unlit. -/
theorem C10_display_binary (d : Display) (x y : Nat) (sprite : List Nat) (c : Nat)
    (hd : cellsBinary d.memory) (hc : c = 0 ∨ c = 1) :
    cellsBinary Display.new.memory ∧
    cellsBinary d.clear.memory ∧
    cellsBinary (d.draw x y sprite).1.memory ∧
    (((c == 0x01) = true) ↔ ¬ c = 0) ∧
    (Nat.xor c 0x01 = if c = 0 then 1 else 0) := by
  have hfresh : cellsBinary (List.replicate DISPLAY_HEIGHT (List.replicate DISPLAY_WIDTH 0)) := by
    intro r cc
    rw [getD_replicate]
    split
    · rw [getD_replicate]; split <;> exact Or.inl rfl
    · exact Or.inl rfl
  refine ⟨hfresh, hfresh, ?_, ?_, ?_⟩
  · show cellsBinary (((List.range sprite.length).foldl
      (fun st j => (List.range 8).foldl
        (fun st2 i => Display.drawStep x y sprite st2 (j, i)) st)
      (d.memory, false)).1)
    refine foldl_preserve (fun (st : List (List Nat) × Bool) => cellsBinary st.1) _ ?_ _ _ hd
    intro a b ha
    refine foldl_preserve (fun (st : List (List Nat) × Bool) => cellsBinary st.1) _ ?_ _ _ ha
    intro a2 b2 ha2
    exact drawStep_preserves_binary x y sprite a2 (b, b2) ha2
  · rcases hc with rfl | rfl <;> decide
  · rcases hc with rfl | rfl <;> decide

theorem C10_display_binary_witness :
    cellsBinary (Display.new.draw 60 0 [0xFF]).1.memory ∧
    (((1 == 0x01) = true) ↔ ¬ (1 : Nat) = 0) ∧
    (Nat.xor 1 0x01 = if (1 : Nat) = 0 then 1 else 0) := by
  have h := C10_display_binary Display.new 60 0 [0xFF] 1
    (C10_display_binary Display.new 0 0 [] 0 (fun r c => by
        rw [show Display.new.memory = List.replicate DISPLAY_HEIGHT
              (List.replicate DISPLAY_WIDTH 0) from rfl, getD_replicate]
        split
        · rw [getD_replicate]; split <;> exact Or.inl rfl
        · exact Or.inl rfl) (Or.inl rfl)).1
    (Or.inr rfl)
  exact ⟨h.2.2.1, h.2.2.2.1, h.2.2.2.2⟩

/-! ## Claim C4: the sprite blit -/

/-- The (row, bit) pairs visited by Display::draw for an h-row sprite, in
loop order: j from 0 to h-1, and for each j, i from 0 to 7. -/
def drawSteps (h : Nat) : List (Nat × Nat) :=
  (List.range h).flatMap (fun j => (List.range 8).map (fun i => (j, i)))

theorem foldl_bind_eq {α β γ : Type} (l : List α) (f : α → List β) (g : γ → β → γ) :
    ∀ (init : γ), (l.flatMap f).foldl g init
      = l.foldl (fun acc a => (f a).foldl g acc) init := by
  induction l with
  | nil => intro init; rfl
  | cons b t ih =>
    intro init
    rw [List.flatMap_cons, List.foldl_append, List.foldl_cons]
    exact ih _

/-- Display::draw is the fold of drawStep over the flattened step list. -/
theorem draw_eq_flat (d : Display) (x y : Nat) (sprite : List Nat) :
    d.draw x y sprite
      = (⟨((drawSteps sprite.length).foldl (Display.drawStep x y sprite) (d.memory, false)).1⟩,
         ((drawSteps sprite.length).foldl (Display.drawStep x y sprite) (d.memory, false)).2) := by
  unfold Display.draw drawSteps
  rw [foldl_bind_eq]
  have hfun : (fun (acc : List (List Nat) × Bool) (j : Nat) =>
      ((List.range 8).map (fun i => (j, i))).foldl (Display.drawStep x y sprite) acc)
      = (fun st j => (List.range 8).foldl
          (fun st2 i => Display.drawStep x y sprite st2 (j, i)) st) := by
    funext acc j
    rw [List.foldl_map]
  rw [hfun]

theorem foldl_fst_irrel {α β : Type} (F : α × Bool → β → α × Bool)
    (h1 : ∀ a c b, (F (a, c) b).1 = (F (a, false) b).1)
    (h2 : ∀ a c b, (F (a, c) b).2 = (c || (F (a, false) b).2)) :
    ∀ (l : List β) (a : α) (c c' : Bool),
      (l.foldl F (a, c)).1 = (l.foldl F (a, c')).1 := by
  intro l
  induction l with
  | nil => intro a c c'; rfl
  | cons b t ih =>
    intro a c c'
    rw [List.foldl_cons, List.foldl_cons]
    have e1 : F (a, c) b = ((F (a, false) b).1, c || (F (a, false) b).2) := by
      rw [← h1 a c b, ← h2 a c b]
    have e2 : F (a, c') b = ((F (a, false) b).1, c' || (F (a, false) b).2) := by
      rw [← h1 a c' b, ← h2 a c' b]
    rw [e1, e2]
    exact ih _ _ _

theorem foldl_snd_or {α β : Type} (F : α × Bool → β → α × Bool)
    (h1 : ∀ a c b, (F (a, c) b).1 = (F (a, false) b).1)
    (h2 : ∀ a c b, (F (a, c) b).2 = (c || (F (a, false) b).2)) :
    ∀ (l : List β) (a : α) (c : Bool),
      (l.foldl F (a, c)).2 = (c || (l.foldl F (a, false)).2) := by
  intro l
  induction l with
  | nil => intro a c; rw [List.foldl_nil, List.foldl_nil, Bool.or_false]
  | cons b t ih =>
    intro a c
    rw [List.foldl_cons, List.foldl_cons]
    have e1 : F (a, c) b = ((F (a, false) b).1, c || (F (a, false) b).2) := by
      rw [← h1 a c b, ← h2 a c b]
    have e0 : F (a, false) b = ((F (a, false) b).1, (F (a, false) b).2) := rfl
    rw [e1, ih _ _]
    conv_rhs => rw [e0, ih _ _]
    rw [Bool.or_assoc]

theorem foldl_snd_iff {α β : Type} (F : α × Bool → β → α × Bool) (d : β)
    (h1 : ∀ a c b, (F (a, c) b).1 = (F (a, false) b).1)
    (h2 : ∀ a c b, (F (a, c) b).2 = (c || (F (a, false) b).2)) :
    ∀ (l : List β) (a : α),
      ((l.foldl F (a, false)).2 = true ↔
        ∃ k, k < l.length ∧
          (F (((l.take k).foldl F (a, false)).1, false) (l.getD k d)).2 = true) := by
  intro l
  induction l with
  | nil => intro a; simp
  | cons b t ih =>
    intro a
    rw [List.foldl_cons]
    have e0 : F (a, false) b = ((F (a, false) b).1, (F (a, false) b).2) := rfl
    conv_lhs => rw [e0]
    rw [foldl_snd_or F h1 h2, Bool.or_eq_true, ih]
    constructor
    · rintro (hc0 | ⟨k, hk, hs⟩)
      · exact ⟨0, by simp, hc0⟩
      · refine ⟨k + 1, by simpa using hk, ?_⟩
        show (F (((t.take k).foldl F (F (a, false) b)).1, false) (t.getD k d)).2 = true
        conv_lhs => rw [e0]
        rw [foldl_fst_irrel F h1 h2 (t.take k) (F (a, false) b).1 (F (a, false) b).2 false]
        exact hs
    · rintro ⟨k, hk, hs⟩
      rcases k with _ | k'
      · exact Or.inl hs
      · refine Or.inr ⟨k', by simpa using hk, ?_⟩
        have hs' : (F (((t.take k').foldl F (F (a, false) b)).1, false) (t.getD k' d)).2
            = true := hs
        conv_lhs at hs' => rw [e0]
        rw [foldl_fst_irrel F h1 h2 (t.take k') (F (a, false) b).1 (F (a, false) b).2 false]
          at hs'
        exact hs'

theorem drawStep_fst_irrel (x y : Nat) (sprite : List Nat)
    (a : List (List Nat)) (c : Bool) (b : Nat × Nat) :
    (Display.drawStep x y sprite (a, c) b).1 = (Display.drawStep x y sprite (a, false) b).1 := by
  by_cases hbit : sprite.getD b.1 0 &&& (0x80 >>> b.2) ≠ 0
  · simp only [Display.drawStep, if_pos hbit]
  · simp only [Display.drawStep, if_neg hbit]

theorem drawStep_snd_or (x y : Nat) (sprite : List Nat)
    (a : List (List Nat)) (c : Bool) (b : Nat × Nat) :
    (Display.drawStep x y sprite (a, c) b).2
      = (c || (Display.drawStep x y sprite (a, false) b).2) := by
  by_cases hbit : sprite.getD b.1 0 &&& (0x80 >>> b.2) ≠ 0
  · simp only [Display.drawStep, if_pos hbit, Bool.false_or]
  · simp only [Display.drawStep, if_neg hbit, Bool.or_false]

/-- Claim C4: (1) each blit step for sprite row j and bit i targets exactly
the cell at row (y + j) mod 32, column (x + i) mod 64: when the sprite bit
is 0 the state is untouched, and when it is 1 the target cell is XOR-flipped
while every other cell is unchanged and a collision is recorded exactly if
the target cell was lit; (2) the boolean returned by draw is true exactly
when some step records a collision; (3) drawing the 8-wide one-row all-ones
sprite at x = 60, y = 0 on a cleared display lights exactly columns 60, 61,
62, 63, 0, 1, 2, 3 of row 0 and leaves every other row clear. -/
theorem C4_draw_blit :
    (∀ (mem : List (List Nat)) (col : Bool) (x y j i : Nat) (sprite : List Nat),
      mem.length = DISPLAY_HEIGHT →
      (∀ row ∈ mem, row.length = DISPLAY_WIDTH) →
      (sprite.getD j 0 &&& (0x80 >>> i) = 0 →
        Display.drawStep x y sprite (mem, col) (j, i) = (mem, col)) ∧
      (sprite.getD j 0 &&& (0x80 >>> i) ≠ 0 →
        ((Display.drawStep x y sprite (mem, col) (j, i)).1.getD ((y + j) % DISPLAY_HEIGHT)
            []).getD ((x + i) % DISPLAY_WIDTH) 0
          = Nat.xor ((mem.getD ((y + j) % DISPLAY_HEIGHT) []).getD ((x + i) % DISPLAY_WIDTH) 0)
              0x01 ∧
        (∀ rr cc, ¬ (rr = (y + j) % DISPLAY_HEIGHT ∧ cc = (x + i) % DISPLAY_WIDTH) →
          ((Display.drawStep x y sprite (mem, col) (j, i)).1.getD rr []).getD cc 0
            = (mem.getD rr []).getD cc 0) ∧
        (Display.drawStep x y sprite (mem, col) (j, i)).2
          = (col || ((mem.getD ((y + j) % DISPLAY_HEIGHT) []).getD ((x + i) % DISPLAY_WIDTH) 0
              == 0x01)))) ∧
    (∀ (dd : Display) (x y : Nat) (sprite : List Nat),
      ((dd.draw x y sprite).2 = true ↔
        ∃ k, k < (drawSteps sprite.length).length ∧
          (Display.drawStep x y sprite
            ((((drawSteps sprite.length).take k).foldl (Display.drawStep x y sprite)
                (dd.memory, false)).1, false)
            ((drawSteps sprite.length).getD k (0, 0))).2 = true)) ∧
    ((∀ c, c < 64 →
        (((Display.new.draw 60 0 [0xFF]).1.memory.getD 0 []).getD c 0 = 1
          ↔ (60 ≤ c ∨ c ≤ 3))) ∧
     (∀ rr, rr < 32 → ∀ c, c < 64 → 0 < rr →
        ((Display.new.draw 60 0 [0xFF]).1.memory.getD rr []).getD c 0 = 0)) := by
  refine ⟨?_, ?_, by decide, by decide⟩
  · intro mem col x y j i sprite hmem hrows
    constructor
    · intro hbit
      unfold Display.drawStep
      rw [if_neg (by simpa using hbit)]
    · intro hbit
      have hy : (y + j) % DISPLAY_HEIGHT < mem.length := by
        rw [hmem]; exact Nat.mod_lt _ (by decide)
      have hrowlen : (mem.getD ((y + j) % DISPLAY_HEIGHT) []).length = DISPLAY_WIDTH := by
        rw [List.getD_eq_getElem _ _ hy]
        exact hrows _ (List.getElem_mem hy)
      have hx : (x + i) % DISPLAY_WIDTH < (mem.getD ((y + j) % DISPLAY_HEIGHT) []).length := by
        rw [hrowlen]; exact Nat.mod_lt _ (by decide)
      refine ⟨?_, ?_, ?_⟩
      · simp only [Display.drawStep, if_pos hbit]
        rw [getD_set_cases, if_pos ⟨rfl, hy⟩, getD_set_cases, if_pos ⟨rfl, hx⟩]
      · intro rr cc hne
        simp only [Display.drawStep, if_pos hbit]
        rw [getD_set_cases]
        by_cases hr : (y + j) % DISPLAY_HEIGHT = rr
        · subst hr
          rw [if_pos ⟨rfl, hy⟩, getD_set_cases,
              if_neg (by rintro ⟨rfl, _⟩; exact hne ⟨rfl, rfl⟩)]
        · rw [if_neg (by rintro ⟨h', _⟩; exact hr h')]
      · simp only [Display.drawStep, if_pos hbit]
  · intro dd x y sprite
    rw [draw_eq_flat]
    exact foldl_snd_iff (Display.drawStep x y sprite) (0, 0)
      (drawStep_fst_irrel x y sprite) (drawStep_snd_or x y sprite)
      (drawSteps sprite.length) dd.memory

theorem C4_draw_blit_witness :
    ((List.replicate 32 (List.replicate 64 0)).length = DISPLAY_HEIGHT ∧
     (∀ row ∈ List.replicate 32 (List.replicate 64 (0 : Nat)), row.length = DISPLAY_WIDTH)) ∧
    (([0xFF] : List Nat).getD 0 0 &&& (0x80 >>> 0) ≠ 0 →
      ((Display.drawStep 60 0 [0xFF] (List.replicate 32 (List.replicate 64 0), false)
          (0, 0)).1.getD ((0 + 0) % DISPLAY_HEIGHT) []).getD ((60 + 0) % DISPLAY_WIDTH) 0
        = Nat.xor (((List.replicate 32 (List.replicate 64 0)).getD ((0 + 0) % DISPLAY_HEIGHT)
            []).getD ((60 + 0) % DISPLAY_WIDTH) 0) 0x01 ∧
      (∀ rr cc, ¬ (rr = (0 + 0) % DISPLAY_HEIGHT ∧ cc = (60 + 0) % DISPLAY_WIDTH) →
        ((Display.drawStep 60 0 [0xFF] (List.replicate 32 (List.replicate 64 0), false)
            (0, 0)).1.getD rr []).getD cc 0
          = ((List.replicate 32 (List.replicate 64 0)).getD rr []).getD cc 0) ∧
      (Display.drawStep 60 0 [0xFF] (List.replicate 32 (List.replicate 64 0), false)
          (0, 0)).2
        = (false || (((List.replicate 32 (List.replicate 64 0)).getD ((0 + 0) % DISPLAY_HEIGHT)
            []).getD ((60 + 0) % DISPLAY_WIDTH) 0 == 0x01))) := by
  refine ⟨⟨by decide, by decide⟩, ?_⟩
  exact (C4_draw_blit.1 (List.replicate 32 (List.replicate 64 0)) false 60 0 0 0 [0xFF]
    (by decide) (by decide)).2

end Chip8
